import Mathlib

/-!
Verification development for the weather-fetcher desktop application
(`weather_fetcher.py` and `gui.py`).  Python values parsed from JSON are
modelled by the inductive type `Json`; Python `None` is `Json.null`; numbers
are rationals.  Fallible Python code is modelled in the `Except` monad over a
small exception type, HTTP transport outcomes are passed in explicitly, and
the GUI's mutable widget/persistence state is an explicit record acted on by
state-transformer functions.  Icon downloads and the matplotlib chart are
cosmetic IO and are not modelled.
-/

/-- Model of a parsed Python JSON value: dicts are association lists in
insertion order, numbers are rationals, and `null` models Python `None`. -/
inductive Json where
  | null : Json
  | bool : Bool → Json
  | num : ℚ → Json
  | str : String → Json
  | arr : List Json → Json
  | obj : List (String × Json) → Json

/-- Python truthiness of a JSON value: `None`, `False`, `0`, the empty string,
the empty list and the empty dict are falsy, everything else is truthy. -/
def truthy : Json → Bool
  | .null => false
  | .bool b => b
  | .num q => decide (q ≠ 0)
  | .str s => decide (s ≠ "")
  | .arr xs => !xs.isEmpty
  | .obj kvs => !kvs.isEmpty

/-- Python `a or b` on JSON values. -/
def pyOr (a b : Json) : Json := if truthy a then a else b

/-- Python `a or b` on strings (the empty string is the only falsy string). -/
def pyOrS (a b : String) : String := if a = "" then b else a

/-- Python exceptions raised by the embedded code: `RuntimeError` with the
message built by `weather_fetcher.py`, and the attribute/type errors that
`.get` or indexing raise on non-dict/non-list values (their exact Python
message text is not observable in this development and is abstracted). -/
inductive PyErr where
  | runtimeError : String → PyErr
  | attributeError : PyErr
  | typeError : PyErr
deriving DecidableEq

/-- Python `d.get(k)` with its default of `None`: association-list lookup on a
dict, an `AttributeError` on any non-dict value. -/
def Json.dget : Json → String → Except PyErr Json
  | .obj kvs, k => .ok ((kvs.lookup k).getD .null)
  | _, _ => .error .attributeError

/-- Python `d.get(k, default)`. -/
def Json.dgetD : Json → String → Json → Except PyErr Json
  | .obj kvs, k, d => .ok ((kvs.lookup k).getD d)
  | _, _, _ => .error .attributeError

/-- Python `xs[0]` as applied to the value of `(... or [{}])` in
`fetch_weather_by_city`: the head of a non-empty list, an error otherwise
(`IndexError`/`TypeError`, both abstracted as `typeError`). -/
def Json.index0 : Json → Except PyErr Json
  | .arr (x :: _) => .ok x
  | _ => .error .typeError

/-- The normalized current-weather dict produced by `fetch_weather_by_city`
(weather_fetcher.py lines 89-102); every field holds the Python value stored
under the corresponding key of the result dict. -/
structure CurrentWeather where
  city : Json
  country : Json
  temperature : Json
  humidity : Json
  pressure : Json
  description : Json
  icon : Json
  wind_speed : Json
  sunrise : Json
  sunset : Json
  timezone : Json
  coord : Json

/-- The normalization step of `fetch_weather_by_city` (weather_fetcher.py
lines 88-103): each field is read with the source's `dict.get` chains, in the
evaluation order of the result dict literal; repeated identical `data.get`
calls are bound once, which is sound because they are pure here. -/
def normalizeWeather (city : String) (data : Json) : Except PyErr CurrentWeather := do
  let nameV ← data.dget "name"
  let sysV ← data.dget "sys"
  let country ← (pyOr sysV (.obj [])).dgetD "country" (.str "")
  let mainV ← data.dget "main"
  let temperature ← (pyOr mainV (.obj [])).dget "temp"
  let humidity ← (pyOr mainV (.obj [])).dget "humidity"
  let pressure ← (pyOr mainV (.obj [])).dget "pressure"
  let weatherV ← data.dget "weather"
  let w0 ← (pyOr weatherV (.arr [.obj []])).index0
  let description ← w0.dgetD "description" (.str "N/A")
  let icon ← w0.dgetD "icon" (.str "")
  let windV ← data.dget "wind"
  let wind_speed ← (pyOr windV (.obj [])).dget "speed"
  let sunrise ← (pyOr sysV (.obj [])).dget "sunrise"
  let sunset ← (pyOr sysV (.obj [])).dget "sunset"
  let timezone ← data.dgetD "timezone" (.num 0)
  let coord ← data.dgetD "coord" (.obj [])
  return { city := pyOr nameV (.str city), country := country, temperature := temperature,
           humidity := humidity, pressure := pressure, description := description,
           icon := icon, wind_speed := wind_speed, sunrise := sunrise, sunset := sunset,
           timezone := timezone, coord := coord }

/-- Model of Python `str` on a non-integral positive rational restricted to
tenths (the only non-integral values reachable in this development come from
`round(x, 1)`); other denominators get a fraction rendering never observed by
the claims. -/
def pyNumStrPos (q : ℚ) : String :=
  if (q * 10).den = 1 then
    toString ((q * 10).num / 10) ++ "." ++ toString ((q * 10).num % 10)
  else toString q.num ++ "/" ++ toString q.den

/-- Model of Python `str` on a JSON number; integral values print without a
decimal point, matching JSON integers parsing to Python `int`. -/
def pyNumStr (q : ℚ) : String :=
  if q.den = 1 then toString q.num
  else if q < 0 then "-" ++ pyNumStrPos (-q)
  else pyNumStrPos q

mutual
/-- Model of Python `repr` on parsed JSON values, as `str` uses it inside
containers (string escaping is not modelled). -/
def pyRepr : Json → String
  | .null => "None"
  | .bool b => if b then "True" else "False"
  | .num q => pyNumStr q
  | .str s => "\x27" ++ s ++ "\x27"
  | .arr xs => "[" ++ pyReprSeq xs ++ "]"
  | .obj kvs => "\x7b" ++ pyReprPairs kvs ++ "\x7d"

/-- Comma-separated reprs of the elements of a JSON array. -/
def pyReprSeq : List Json → String
  | [] => ""
  | [x] => pyRepr x
  | x :: y :: xs => pyRepr x ++ ", " ++ pyReprSeq (y :: xs)

/-- Comma-separated reprs of the items of a JSON dict. -/
def pyReprPairs : List (String × Json) → String
  | [] => ""
  | [(k, v)] => "\x27" ++ k ++ "\x27: " ++ pyRepr v
  | (k, v) :: kv :: kvs => "\x27" ++ k ++ "\x27: " ++ pyRepr v ++ ", " ++ pyReprPairs (kv :: kvs)
end

/-- Model of Python `str` at top level (strings print without quotes). -/
def pyStr : Json → String
  | .str s => s
  | j => pyRepr j

/-- HTTP transport outcome of one `requests.get` call: either a raised
`requests.RequestException` carrying its text, or a response with a status
code and a body that parses to JSON (`some`) or does not (`none`). -/
inductive Transport where
  | netFail : String → Transport
  | response : Nat → Option Json → Transport

/-- Model of `str(e)` for the `requests.HTTPError` raised by
`raise_for_status`; its exact text lives in the requests library, outside this
repository, so only its dependence on the status code is modelled. -/
def httpErrText (status : Nat) : String := "HTTPError status " ++ toString status

/-- The message of `RuntimeError(f"API error: {msg}")` in `_get_json`
(weather_fetcher.py lines 50-57): the body's truthy `message` field if any,
else `str` of the parsed body; `str(e)` when the body does not parse or is
not a dict (those `except Exception` paths). -/
def apiMsg (status : Nat) (body : Option Json) : String :=
  match body with
  | some (.obj kvs) =>
    let mv := (kvs.lookup "message").getD .null
    if truthy mv then pyStr mv else pyStr (.obj kvs)
  | some _ => httpErrText status
  | none => httpErrText status

/-- Embedding of `_get_json` (weather_fetcher.py lines 39-59) over a transport
outcome; `raise_for_status` raises exactly on statuses 400-599. -/
def get_json (t : Transport) : Except PyErr Json :=
  match t with
  | .netFail e => .error (.runtimeError ("Network error: " ++ e))
  | .response status body =>
    if 400 ≤ status ∧ status < 600 then
      .error (.runtimeError ("API error: " ++ apiMsg status body))
    else
      match body with
      | some j => .ok j
      | none => .error (.runtimeError "Invalid JSON response from server")

/-- The message of the `RuntimeError` raised by `_raise_if_no_key`. -/
def keyMsg : String :=
  "OPENWEATHER_API_KEY is not set. Create a .env file with:\nOPENWEATHER_API_KEY=your_api_key_here"

/-- Embedding of `_raise_if_no_key` (weather_fetcher.py lines 31-36); the key
is falsy when the environment variable is unset (`None`) or empty. -/
def raise_if_no_key (apiKey : Option String) : Except PyErr Unit :=
  if apiKey.getD "" = "" then .error (.runtimeError keyMsg) else .ok ()

/-- Embedding of `fetch_weather_by_city` (weather_fetcher.py lines 62-103),
with the module-level API key and the transport outcome of the single HTTP
request passed explicitly; the `units` argument only feeds the query string
and therefore does not influence the result beyond the transport outcome. -/
def fetch_weather_by_city (apiKey : Option String) (t : Transport)
    (city : String) (units : String) : Except PyErr CurrentWeather := do
  let _ ← raise_if_no_key apiKey
  let data ← get_json t
  normalizeWeather city data

/-- Characters Python `str.strip` removes (ASCII whitespace suffices here). -/
def pyStrip (s : String) : String :=
  ⟨((s.data.dropWhile Char.isWhitespace).reverse.dropWhile Char.isWhitespace).reverse⟩

/-- City extraction for one IP-geolocation provider: the body of the loop of
`detect_city_via_ip` (weather_fetcher.py lines 148-158).  Any raise inside the
`try` (network failure, 4xx/5xx status, invalid JSON, `.get` on a non-dict)
is swallowed into `none`; a value that is a string with non-empty strip is
returned stripped, everything else falls through to the next provider. -/
def providerCity (t : Transport) : Option String :=
  match t with
  | .netFail _ => none
  | .response status body =>
    if 400 ≤ status ∧ status < 600 then none
    else
      match body with
      | some (.obj kvs) =>
        let c := pyOr (pyOr ((kvs.lookup "city").getD .null) ((kvs.lookup "region").getD .null))
                      ((kvs.lookup "city_name").getD .null)
        match c with
        | .str s => if pyStrip s ≠ "" then some (pyStrip s) else none
        | _ => none
      | _ => none

/-- Embedding of `detect_city_via_ip` (weather_fetcher.py lines 139-159) over
the transport outcomes of the three providers, in query order; the list is
traversed left to right and the first extracted city is returned. -/
def detect_city_via_ip : List Transport → Option String
  | [] => none
  | t :: rest =>
    match providerCity t with
    | some c => some c
    | none => detect_city_via_ip rest

/-- Lexicographic string comparison on the underlying character lists, the
order Python uses to compare strings. -/
def strLe (a b : String) : Bool := decide (a.data < b.data) || decide (a.data = b.data)

/-- Sorted insertion for `sortStrings`. -/
def insertStr (x : String) : List String → List String
  | [] => [x]
  | y :: ys => if strLe x y then x :: y :: ys else y :: insertStr x ys

/-- Model of Python `sorted` on a list of strings (ascending; the input lists
sorted here are duplicate-free, so any sorting algorithm yields the same
list). -/
def sortStrings : List String → List String
  | [] => []
  | x :: xs => insertStr x (sortStrings xs)

/-- Python `suffix-test`: `s.endswith(p)` on the underlying character lists. -/
def strEndsWith (s p : String) : Bool := p.data.isSuffixOf s.data

/-- Helper for `strHasSub`: contiguous-sublist test on character lists. -/
def subListOf (pat : List Char) : List Char → Bool
  | [] => pat.isEmpty
  | c :: rest => pat.isPrefixOf (c :: rest) || subListOf pat rest

/-- Python `pat in s` on strings: contiguous substring test. -/
def strHasSub (s pat : String) : Bool := subListOf pat.data s.data

/-- Python `s.lower()` (per-character, ASCII suffices here). -/
def strLower (s : String) : String := ⟨s.data.map Char.toLower⟩

/-- Helper for `pyTitle`: tracks whether the previous character was a letter. -/
def pyTitleAux : Bool → List Char → List Char
  | _, [] => []
  | prevAlpha, c :: rest =>
    if c.isAlpha then
      (if prevAlpha then c.toLower else c.toUpper) :: pyTitleAux true rest
    else c :: pyTitleAux false rest

/-- Model of Python `s.title()`: uppercase a letter after a non-letter,
lowercase a letter after a letter (ASCII letters suffice here). -/
def pyTitle (s : String) : String := ⟨pyTitleAux false s.data⟩

/-- Python `round(x, 1)` on the rational model of a float: scale by ten,
round half to even, scale back. -/
def pyRound1 (q : ℚ) : ℚ :=
  (let x := q * 10
   let f : ℤ := ⌊x⌋
   let r := x - f
   if r < 1/2 then (f : ℚ) else if 1/2 < r then (f + 1 : ℚ)
   else if f % 2 = 0 then (f : ℚ) else (f + 1 : ℚ)) / 10

/-- One normalized forecast entry as produced by `fetch_forecast_by_city`
(weather_fetcher.py lines 124-135), with the value types every provider
response carries: `dt_txt` and `date` strings (the date empty exactly when
`dt_txt` has no text before a space), numeric fields a number or `None`. -/
structure ForecastEntry where
  dt_txt : String
  date : String
  temperature : Option ℚ
  humidity : Option ℚ
  description : String
  icon : String
deriving DecidableEq

/-- One rendered day of the 5-day strip: the fields of the chosen dict that
the rendering loop of `_update_ui` reads. -/
structure DailySummary where
  date : String
  temperature : Option ℚ
  description : String
  icon : String
deriving DecidableEq

/-- One step of the `by_date.setdefault(d, []).append(item)` loop of
`_update_ui`: append the entry to its date's group, creating the group at the
end of the dict on first sight (Python dicts preserve insertion order). -/
def addEntry : List (String × List ForecastEntry) → String → ForecastEntry →
    List (String × List ForecastEntry)
  | [], d, e => [(d, [e])]
  | (k, es) :: rest, d, e =>
    if k = d then (k, es ++ [e]) :: rest else (k, es) :: addEntry rest d e

/-- The `by_date` grouping loop of `_update_ui` (gui.py lines 457-462);
entries with a falsy date are skipped. -/
def byDate (forecast : List ForecastEntry) : List (String × List ForecastEntry) :=
  forecast.foldl (fun m e => if e.date = "" then m else addEntry m e.date e) []

/-- Reading `by_date[d]` (total here: the days iterated over are always keys). -/
def groupOf (m : List (String × List ForecastEntry)) (d : String) : List ForecastEntry :=
  (m.lookup d).getD []

/-- The per-day choice of `_update_ui` (gui.py lines 467-480): the first entry
of the day whose `dt_txt` ends in "12:00:00", otherwise a dict with the date,
the mean of the non-`None` temperatures rounded to one decimal (or `None` if
there are none), and the first entry's description and icon. -/
def summarize (entries : List ForecastEntry) (d : String) : DailySummary :=
  match entries.find? (fun e => strEndsWith e.dt_txt "12:00:00") with
  | some e => { date := e.date, temperature := e.temperature,
                description := e.description, icon := e.icon }
  | none =>
    let temps := entries.filterMap (fun e => e.temperature)
    { date := d,
      temperature :=
        if temps.length ≠ 0 then some (pyRound1 (temps.sum / (temps.length : ℚ))) else none,
      description := ((entries.head?).map (fun e => e.description)).getD "",
      icon := ((entries.head?).map (fun e => e.icon)).getD "" }

/-- The five-day daily-summary computation of `_update_ui` (gui.py lines
456-480): group by date, sort the dict's keys, keep the first five, summarise
each day. -/
def dailySummaries (forecast : List ForecastEntry) : List DailySummary :=
  let m := byDate forecast
  let days := (sortStrings (m.map Prod.fst)).take 5
  days.map (fun d => summarize (groupOf m d) d)

/-- Helper for `firstDedup`: keep elements not seen before. -/
def firstDedupAux (seen : List String) : List String → List String
  | [] => []
  | d :: rest =>
    if d ∈ seen then firstDedupAux seen rest else d :: firstDedupAux (d :: seen) rest

/-- First-occurrence deduplication; order is immaterial below because the
result is sorted afterwards. -/
def firstDedup (l : List String) : List String := firstDedupAux [] l

/-- Reference daily summary, following the specification's words: per unique
date of the sequence, the summary is the entry whose timestamp ends in
"12:00:00" if one exists, otherwise the arithmetic mean of that date's
non-null temperatures rounded to one decimal, paired with the first entry's
description and icon; at most the first 5 distinct dates, sorted ascending,
are kept. -/
def dailySummariesSpec (forecast : List ForecastEntry) : List DailySummary :=
  let days := (sortStrings (firstDedup (forecast.map (fun e => e.date)))).take 5
  days.map (fun d => summarize (forecast.filter (fun e => e.date = d)) d)

/-- The three notification kinds of `_update_ui` (gui.py lines 521-538). -/
inductive Alert where
  | rain : Alert
  | heat : Alert
  | cold : Alert
deriving DecidableEq

/-- The rain check of the notification policy (gui.py lines 522, 525-526):
the lower-cased `(description or "")` must be non-empty and contain one of
the three wet substrings. -/
def rainAlerts (description : String) : List Alert :=
  let desc := strLower (pyOrS description "")
  if (desc != "") && (strHasSub desc "rain" || strHasSub desc "drizzle" || strHasSub desc "shower")
  then [Alert.rain] else []

/-- The temperature-threshold check of the notification policy (gui.py lines
527-536): nothing for a `None` temperature, heat/cold for metric, heat only
for imperial, nothing for any other unit system. -/
def thresholdAlerts (units : String) : Option ℚ → List Alert
  | none => []
  | some t =>
    if units = "metric" then
      if 35 ≤ t then [Alert.heat] else if t ≤ 0 then [Alert.cold] else []
    else if units = "imperial" then
      if 95 ≤ t then [Alert.heat] else []
    else []

/-- The notification policy of `_update_ui` (gui.py lines 521-538) for a
record whose description is a string and whose temperature is a number or
`None` (as every provider response yields; `float()` is then the identity on
the rational model, so the surrounding `try` never fires); alerts appear in
the order shown. -/
def evalAlerts (units : String) (description : String) (temperature : Option ℚ) : List Alert :=
  rainAlerts description ++ thresholdAlerts units temperature

/-- A message box shown by the GUI, in the order shown. -/
inductive Dialog where
  | info : String → String → Dialog
  | warning : String → String → Dialog
  | error : String → String → Dialog
deriving DecidableEq

/-- Model of Python `str(float(t))`: `float()` conversion makes integral
values print with a trailing ".0" inside the alert messages. -/
def pyFloatStr (q : ℚ) : String := if q.den = 1 then toString q.num ++ ".0" else pyNumStr q

/-- The dialog `_update_ui` shows for an alert (gui.py lines 525-536); the
heat/cold messages embed `float(temp_val)` and the branch's unit glyph. -/
def alertDialog (units city : String) (temperature : Option ℚ) : Alert → Dialog
  | .rain => .info "Rain alert" ("It may be wet in " ++ city ++ ".")
  | .heat => .warning "Heat alert"
      ("Hot in " ++ city ++ ": " ++ ((temperature.map pyFloatStr).getD "")
        ++ (if units = "metric" then "°C" else "°F"))
  | .cold => .info "Cold alert"
      ("Freezing in " ++ city ++ ": " ++ ((temperature.map pyFloatStr).getD "") ++ "°C")

/-- The mutable presentation state touched by the embedded handlers: widget
variables and texts, the dialogs shown so far (in order), the in-memory
favorites list, and the two persisted files (`savedLastCity`,
`savedFavorites` record the last value written, `none` meaning no write has
been modelled yet).  Icon images and the chart are cosmetic IO and are not
modelled. -/
structure AppState where
  status : String
  current_city : Option String
  cityVar : String
  units : String
  favsVar : String
  favorites : List String
  favsCbValues : List String
  savedLastCity : Option String
  savedFavorites : Option (List String)
  cityText : String
  descText : String
  tempText : String
  humText : String
  nextText : String
  summaries : List DailySummary
  dialogs : List Dialog
deriving DecidableEq

/-- Typed view of the normalized current-weather dict as `_update_ui` consumes
it: string fields are strings and numeric fields a number or `None`, the
shapes every provider response yields. -/
structure WeatherView where
  city : String
  country : String
  temperature : Option ℚ
  humidity : Option ℚ
  description : String
  icon : String
deriving DecidableEq

/-- The `unit_label` lookup of gui.py line 429. -/
def unitLabel (units : String) : String :=
  if units = "metric" then "°C" else if units = "imperial" then "°F"
  else if units = "standard" then "K" else "°"

/-- Python f-string interpolation of a numeric-or-`None` field. -/
def pyStrOpt : Option ℚ → String
  | none => "None"
  | some q => pyNumStr q

/-- Embedding of `_update_ui` (gui.py lines 423-542) as a state transformer;
`now` is the wall-clock string interpolated into the status line.  Widget
texts are the strings assigned to the labels; `summaries` is the data the
day-panel loop renders; icon download and the chart are cosmetic IO and not
modelled. -/
def update_ui (now : String) (cur : WeatherView) (forecast : List ForecastEntry)
    (saveLast : Bool) (st : AppState) : AppState :=
  let current_city := pyOrS cur.city (pyStrip st.cityVar)
  let savedLastCity := if saveLast ∧ current_city ≠ "" then some current_city else st.savedLastCity
  let u := unitLabel st.units
  let cityText := cur.city ++ (if cur.country ≠ "" then ", " ++ cur.country else "")
  let descText := pyTitle (pyOrS cur.description "—")
  let tempText := "Temperature: " ++ pyStrOpt cur.temperature ++ u
  let humText := "Humidity: " ++ pyStrOpt cur.humidity ++ "%"
  let nextText :=
    match forecast.find? (fun e => e.dt_txt != "") with
    | some e => "Next: " ++ e.dt_txt ++ " — " ++ pyStrOpt e.temperature ++ u ++ " — " ++ e.description
    | none => ""
  let alerts := evalAlerts st.units cur.description cur.temperature
  { st with
    current_city := some current_city,
    savedLastCity := savedLastCity,
    cityText := cityText, descText := descText, tempText := tempText,
    humText := humText, nextText := nextText,
    summaries := dailySummaries forecast,
    dialogs := st.dialogs ++ alerts.map (alertDialog st.units cur.city cur.temperature),
    status := "Last updated: " ++ now,
    favsCbValues := st.favorites }

/-- Model of Python `str(e)` on the exceptions of this embedding. -/
def pyErrStr : PyErr → String
  | .runtimeError m => m
  | .attributeError => "AttributeError"
  | .typeError => "TypeError"

/-- The dialog `_handle_error` shows (gui.py lines 414-419). -/
def errorDialog (e : PyErr) : Dialog :=
  let msg := pyErrStr e
  if strHasSub msg "Network error" then
    .error "No Internet" "Network error — check your connection."
  else .error "Error" msg

/-- Embedding of `_handle_error` (gui.py lines 414-420). -/
def handle_error (e : PyErr) (st : AppState) : AppState :=
  { st with dialogs := st.dialogs ++ [errorDialog e], status := "Error" }

/-- Embedding of `_load_weather_thread` (gui.py lines 399-412): the outcomes
of the two fetches are passed as values; a failed current-weather fetch ends
in `_handle_error` and nothing else runs, a failed forecast fetch degrades to
the empty list before `_update_ui` runs. -/
def load_weather_thread (curRes : Except PyErr WeatherView)
    (fcRes : Except PyErr (List ForecastEntry)) (now : String) (saveLast : Bool)
    (st : AppState) : AppState :=
  match curRes with
  | .error e => handle_error e st
  | .ok cur =>
    let forecast := match fcRes with | .error _ => [] | .ok f => f
    update_ui now cur forecast saveLast st

/-- Embedding of `add_favorite` (gui.py lines 364-375); the `save_favorites`
call is recorded in `savedFavorites` and `_refresh_favs_cb` in
`favsCbValues`. -/
def add_favorite (st : AppState) : AppState :=
  let city := pyOrS ((st.current_city).getD "") (pyStrip st.cityVar)
  if city = "" then
    { st with dialogs := st.dialogs ++ [.info "Favorite" "No city to add."] }
  else if city ∉ st.favorites then
    let favs := st.favorites ++ [city]
    { st with
      favorites := favs, savedFavorites := some favs, favsCbValues := favs,
      dialogs := st.dialogs ++ [.info "Favorite" ("Saved " ++ city ++ " to favorites.")] }
  else
    { st with dialogs := st.dialogs ++ [.info "Favorite" (city ++ " already in favorites.")] }

/-- Embedding of `remove_favorite` (gui.py lines 377-386); `list.remove`
deletes the first occurrence, as `List.erase` does. -/
def remove_favorite (st : AppState) : AppState :=
  let sel := pyStrip st.favsVar
  if sel = "" then
    { st with dialogs := st.dialogs ++
        [.info "Remove Favorite" "Choose a favorite in the dropdown first."] }
  else if sel ∈ st.favorites then
    let favs := st.favorites.erase sel
    { st with
      favorites := favs, savedFavorites := some favs, favsCbValues := favs,
      dialogs := st.dialogs ++ [.info "Remove Favorite" ("Removed " ++ sel ++ " from favorites.")] }
  else st

/-- Embedding of `load_favorites` (gui.py lines 51-58) over the outcome of
reading and parsing `favorites.json`: `none` when the file does not exist,
`some (.error m)` when reading or JSON-parsing fails inside the `try`, and
`some (.ok j)` for a parsed document.  Any failure yields the empty list. -/
def load_favorites (file : Option (Except String Json)) : Json :=
  match file with
  | none => .arr []
  | some (.error _) => .arr []
  | some (.ok j) => j

/-! ### Helper lemmas about the embedding -/

lemma exceptBind_ok {α β : Type} (e : Except PyErr α) (k : α → Except PyErr β) (r : β) :
    (e >>= k) = .ok r ↔ ∃ v, e = .ok v ∧ k v = .ok r := by
  cases e <;> simp [Bind.bind, Except.bind]

lemma exceptBind_error {α β : Type} (e : Except PyErr α) (k : α → Except PyErr β) (ε : PyErr) :
    (e >>= k) = .error ε ↔ e = .error ε ∨ ∃ v, e = .ok v ∧ k v = .error ε := by
  cases e <;> simp [Bind.bind, Except.bind]

/-- A key that is present (with the given value) or absent in a constructed
response object. -/
def optField (k : String) (o : Option Json) : List (String × Json) :=
  match o with
  | none => []
  | some v => [(k, v)]

/-- A current-weather response object with the five keys the normalizer reads
made explicit (each present or absent), followed by arbitrary other items. -/
def mkResponse (nameO mainO weatherO windO sysO : Option Json)
    (rest : List (String × Json)) : Json :=
  .obj (optField "name" nameO ++ (optField "main" mainO ++ (optField "weather" weatherO ++
        (optField "wind" windO ++ (optField "sys" sysO ++ rest)))))

/-- The other items of a constructed response avoid the five special keys. -/
def restOK (rest : List (String × Json)) : Prop :=
  ∀ kv ∈ rest, kv.1 ≠ "name" ∧ kv.1 ≠ "main" ∧ kv.1 ≠ "weather" ∧ kv.1 ≠ "wind" ∧ kv.1 ≠ "sys"

lemma lookup_optField_self (k : String) (o : Option Json) (rest : List (String × Json)) :
    (optField k o ++ rest).lookup k =
      match o with | some v => some v | none => rest.lookup k := by
  cases o <;> simp [optField, List.lookup]

lemma lookup_optField_ne (k q : String) (o : Option Json) (rest : List (String × Json))
    (h : (k == q) = false) :
    (optField q o ++ rest).lookup k = rest.lookup k := by
  cases o <;> simp [optField, List.lookup, h]

lemma lookup_eq_none_of_keys {rest : List (String × Json)} {k : String}
    (h : ∀ kv ∈ rest, kv.1 ≠ k) : rest.lookup k = none := by
  induction rest with
  | nil => rfl
  | cons kv t ih =>
    have h1 : (k == kv.1) = false := by
      simp only [beq_eq_false_iff_ne]
      exact fun hh => h kv (List.mem_cons_self kv t) hh.symm
    obtain ⟨a, b⟩ := kv
    simp only [List.lookup, h1]
    exact ih fun kv2 hm => h kv2 (List.mem_cons_of_mem _ hm)

lemma mk_lookup_name (nameO mainO weatherO windO sysO : Option Json)
    (rest : List (String × Json)) (hrest : restOK rest) :
    (optField "name" nameO ++ (optField "main" mainO ++ (optField "weather" weatherO ++
      (optField "wind" windO ++ (optField "sys" sysO ++ rest))))).lookup "name" = nameO := by
  rw [lookup_optField_self]
  cases nameO with
  | some v => rfl
  | none =>
    rw [lookup_optField_ne _ _ _ _ (by decide), lookup_optField_ne _ _ _ _ (by decide),
        lookup_optField_ne _ _ _ _ (by decide), lookup_optField_ne _ _ _ _ (by decide)]
    exact lookup_eq_none_of_keys fun kv hm => (hrest kv hm).1

lemma mk_lookup_main (nameO mainO weatherO windO sysO : Option Json)
    (rest : List (String × Json)) (hrest : restOK rest) :
    (optField "name" nameO ++ (optField "main" mainO ++ (optField "weather" weatherO ++
      (optField "wind" windO ++ (optField "sys" sysO ++ rest))))).lookup "main" = mainO := by
  rw [lookup_optField_ne _ _ _ _ (by decide), lookup_optField_self]
  cases mainO with
  | some v => rfl
  | none =>
    rw [lookup_optField_ne _ _ _ _ (by decide), lookup_optField_ne _ _ _ _ (by decide),
        lookup_optField_ne _ _ _ _ (by decide)]
    exact lookup_eq_none_of_keys fun kv hm => (hrest kv hm).2.1

lemma mk_lookup_weather (nameO mainO weatherO windO sysO : Option Json)
    (rest : List (String × Json)) (hrest : restOK rest) :
    (optField "name" nameO ++ (optField "main" mainO ++ (optField "weather" weatherO ++
      (optField "wind" windO ++ (optField "sys" sysO ++ rest))))).lookup "weather" = weatherO := by
  rw [lookup_optField_ne _ _ _ _ (by decide), lookup_optField_ne _ _ _ _ (by decide),
      lookup_optField_self]
  cases weatherO with
  | some v => rfl
  | none =>
    rw [lookup_optField_ne _ _ _ _ (by decide), lookup_optField_ne _ _ _ _ (by decide)]
    exact lookup_eq_none_of_keys fun kv hm => (hrest kv hm).2.2.1

lemma mk_lookup_wind (nameO mainO weatherO windO sysO : Option Json)
    (rest : List (String × Json)) (hrest : restOK rest) :
    (optField "name" nameO ++ (optField "main" mainO ++ (optField "weather" weatherO ++
      (optField "wind" windO ++ (optField "sys" sysO ++ rest))))).lookup "wind" = windO := by
  rw [lookup_optField_ne _ _ _ _ (by decide), lookup_optField_ne _ _ _ _ (by decide),
      lookup_optField_ne _ _ _ _ (by decide), lookup_optField_self]
  cases windO with
  | some v => rfl
  | none =>
    rw [lookup_optField_ne _ _ _ _ (by decide)]
    exact lookup_eq_none_of_keys fun kv hm => (hrest kv hm).2.2.2.1

lemma mk_lookup_sys (nameO mainO weatherO windO sysO : Option Json)
    (rest : List (String × Json)) (hrest : restOK rest) :
    (optField "name" nameO ++ (optField "main" mainO ++ (optField "weather" weatherO ++
      (optField "wind" windO ++ (optField "sys" sysO ++ rest))))).lookup "sys" = sysO := by
  rw [lookup_optField_ne _ _ _ _ (by decide), lookup_optField_ne _ _ _ _ (by decide),
      lookup_optField_ne _ _ _ _ (by decide), lookup_optField_ne _ _ _ _ (by decide),
      lookup_optField_self]
  cases sysO with
  | some v => rfl
  | none => exact lookup_eq_none_of_keys fun kv hm => (hrest kv hm).2.2.2.2

lemma mk_lookup_other (k : String) (nameO mainO weatherO windO sysO : Option Json)
    (rest : List (String × Json))
    (h1 : (k == "name") = false) (h2 : (k == "main") = false) (h3 : (k == "weather") = false)
    (h4 : (k == "wind") = false) (h5 : (k == "sys") = false) :
    (optField "name" nameO ++ (optField "main" mainO ++ (optField "weather" weatherO ++
      (optField "wind" windO ++ (optField "sys" sysO ++ rest))))).lookup k = rest.lookup k := by
  rw [lookup_optField_ne _ _ _ _ h1, lookup_optField_ne _ _ _ _ h2,
      lookup_optField_ne _ _ _ _ h3, lookup_optField_ne _ _ _ _ h4,
      lookup_optField_ne _ _ _ _ h5]

lemma dget_pyOr_obj (m : List (String × Json)) (k : String) :
    (pyOr (.obj m) (.obj [])).dget k = .ok ((m.lookup k).getD .null) := by
  cases m <;> rfl

lemma dgetD_pyOr_obj (m : List (String × Json)) (k : String) (d : Json) :
    (pyOr (.obj m) (.obj [])).dgetD k d = .ok ((m.lookup k).getD d) := by
  cases m <;> rfl

lemma dget_pyOr_null (k : String) : (pyOr .null (.obj [])).dget k = .ok .null := rfl

lemma dgetD_pyOr_null (k : String) (d : Json) : (pyOr .null (.obj [])).dgetD k d = .ok d := rfl

lemma index0_pyOr_null : (pyOr .null (.arr [.obj []])).index0 = .ok (.obj []) := rfl

lemma index0_pyOr_nil : (pyOr (.arr []) (.arr [.obj []])).index0 = .ok (.obj []) := rfl

lemma index0_pyOr_cons (x : Json) (xs : List Json) :
    (pyOr (.arr (x :: xs)) (.arr [.obj []])).index0 = .ok x := rfl

/-- Expected value of a field read through `(data.get(k1) or {}).get(k2, d)`. -/
def memberGet (o : Option Json) (k : String) (d : Json) : Json :=
  match o with
  | some (.obj kvs) => (kvs.lookup k).getD d
  | _ => d

/-- Expected value of a field read through `(data.get("weather") or [{}])[0].get(k, d)`. -/
def weatherGet (o : Option Json) (k : String) (d : Json) : Json :=
  match o with
  | some (.arr (.obj w0 :: _)) => (w0.lookup k).getD d
  | _ => d

lemma dget_obj (kvs : List (String × Json)) (k : String) :
    (Json.obj kvs).dget k = .ok ((kvs.lookup k).getD .null) := rfl

lemma dgetD_obj (kvs : List (String × Json)) (k : String) (d : Json) :
    (Json.obj kvs).dgetD k d = .ok ((kvs.lookup k).getD d) := rfl

/-- The value `weather[0]` evaluates to after `(... or [{}])`. -/
def w0of (o : Option Json) : Json :=
  match o with
  | some (.arr (x :: _)) => x
  | _ => .obj []

lemma dget_pyOr_getD (o : Option Json) (k : String)
    (h : o = none ∨ ∃ m, o = some (.obj m)) :
    (pyOr (o.getD .null) (.obj [])).dget k = .ok (memberGet o k .null) := by
  rcases h with rfl | ⟨m, rfl⟩
  · rfl
  · simpa [memberGet] using dget_pyOr_obj m k

lemma dgetD_pyOr_getD (o : Option Json) (k : String) (d : Json)
    (h : o = none ∨ ∃ m, o = some (.obj m)) :
    (pyOr (o.getD .null) (.obj [])).dgetD k d = .ok (memberGet o k d) := by
  rcases h with rfl | ⟨m, rfl⟩
  · rfl
  · simpa [memberGet] using dgetD_pyOr_obj m k d

lemma index0_pyOr_getD (o : Option Json)
    (h : o = none ∨ o = some (.arr []) ∨ ∃ w0 ws, o = some (.arr (.obj w0 :: ws))) :
    (pyOr (o.getD .null) (.arr [.obj []])).index0 = .ok (w0of o) := by
  rcases h with rfl | rfl | ⟨w0, ws, rfl⟩ <;> rfl

lemma dgetD_w0of (o : Option Json) (k : String) (d : Json)
    (h : o = none ∨ o = some (.arr []) ∨ ∃ w0 ws, o = some (.arr (.obj w0 :: ws))) :
    (w0of o).dgetD k d = .ok (weatherGet o k d) := by
  rcases h with rfl | rfl | ⟨w0, ws, rfl⟩ <;> simp [w0of, weatherGet, dgetD_obj]

/-- Computation of the normalizer on a constructed response whose five special
keys each have the shape an actual provider response gives them (when
present); the remaining fields are read from the other items. -/
lemma normalize_mkResponse (city : String) (nameO mainO weatherO windO sysO : Option Json)
    (rest : List (String × Json))
    (hm : mainO = none ∨ ∃ m, mainO = some (.obj m))
    (hw : weatherO = none ∨ weatherO = some (.arr []) ∨
          ∃ w0 ws, weatherO = some (.arr (.obj w0 :: ws)))
    (hwind : windO = none ∨ ∃ w, windO = some (.obj w))
    (hs : sysO = none ∨ ∃ s, sysO = some (.obj s))
    (hrest : restOK rest) :
    normalizeWeather city (mkResponse nameO mainO weatherO windO sysO rest) = .ok
      { city := pyOr (nameO.getD .null) (.str city),
        country := memberGet sysO "country" (.str ""),
        temperature := memberGet mainO "temp" .null,
        humidity := memberGet mainO "humidity" .null,
        pressure := memberGet mainO "pressure" .null,
        description := weatherGet weatherO "description" (.str "N/A"),
        icon := weatherGet weatherO "icon" (.str ""),
        wind_speed := memberGet windO "speed" .null,
        sunrise := memberGet sysO "sunrise" .null,
        sunset := memberGet sysO "sunset" .null,
        timezone := (rest.lookup "timezone").getD (.num 0),
        coord := (rest.lookup "coord").getD (.obj []) } := by
  have hname := mk_lookup_name nameO mainO weatherO windO sysO rest hrest
  have hmain := mk_lookup_main nameO mainO weatherO windO sysO rest hrest
  have hweather := mk_lookup_weather nameO mainO weatherO windO sysO rest hrest
  have hwind2 := mk_lookup_wind nameO mainO weatherO windO sysO rest hrest
  have hsys := mk_lookup_sys nameO mainO weatherO windO sysO rest hrest
  have htz := mk_lookup_other "timezone" nameO mainO weatherO windO sysO rest
    (by decide) (by decide) (by decide) (by decide) (by decide)
  have hcoord := mk_lookup_other "coord" nameO mainO weatherO windO sysO rest
    (by decide) (by decide) (by decide) (by decide) (by decide)
  have hmains : ∀ k, (pyOr (mainO.getD .null) (.obj [])).dget k = .ok (memberGet mainO k .null) :=
    fun k => dget_pyOr_getD mainO k hm
  have hwinds : ∀ k, (pyOr (windO.getD .null) (.obj [])).dget k = .ok (memberGet windO k .null) :=
    fun k => dget_pyOr_getD windO k hwind
  have hsyss : ∀ k, (pyOr (sysO.getD .null) (.obj [])).dget k = .ok (memberGet sysO k .null) :=
    fun k => dget_pyOr_getD sysO k hs
  have hsyssD : ∀ k d, (pyOr (sysO.getD .null) (.obj [])).dgetD k d = .ok (memberGet sysO k d) :=
    fun k d => dgetD_pyOr_getD sysO k d hs
  have hwx := index0_pyOr_getD weatherO hw
  have hwxD : ∀ k d, (w0of weatherO).dgetD k d = .ok (weatherGet weatherO k d) :=
    fun k d => dgetD_w0of weatherO k d hw
  simp [normalizeWeather, mkResponse, Bind.bind, Except.bind, dget_obj, dgetD_obj,
    hname, hmain, hweather, hwind2, hsys, htz, hcoord,
    hmains, hwinds, hsyss, hsyssD, hwx, hwxD, pure, Except.pure]

/-- C1: for every current-weather JSON response in which any subset of the
top-level keys "main", "weather", "wind", "sys" is absent (keys that are
present having the shape provider responses give them), the normalization of
`fetch_weather_by_city` does not raise; the fields derived from the missing
keys are exactly the null/placeholder defaults, and the fields derived from
present keys are mapped normally from their sub-objects. -/
theorem missing_sections_normalize_safely (city : String)
    (nameO mainO weatherO windO sysO : Option Json) (rest : List (String × Json))
    (hm : mainO = none ∨ ∃ m, mainO = some (.obj m))
    (hw : weatherO = none ∨ weatherO = some (.arr []) ∨
          ∃ w0 ws, weatherO = some (.arr (.obj w0 :: ws)))
    (hwind : windO = none ∨ ∃ w, windO = some (.obj w))
    (hs : sysO = none ∨ ∃ s, sysO = some (.obj s))
    (hrest : restOK rest) :
    ∃ r, normalizeWeather city (mkResponse nameO mainO weatherO windO sysO rest) = .ok r
      ∧ (mainO = none → r.temperature = .null ∧ r.humidity = .null ∧ r.pressure = .null)
      ∧ (∀ m, mainO = some (.obj m) → r.temperature = (m.lookup "temp").getD .null
          ∧ r.humidity = (m.lookup "humidity").getD .null
          ∧ r.pressure = (m.lookup "pressure").getD .null)
      ∧ (weatherO = none → r.description = .str "N/A" ∧ r.icon = .str "")
      ∧ (∀ w0 ws, weatherO = some (.arr (.obj w0 :: ws)) →
          r.description = (w0.lookup "description").getD (.str "N/A")
          ∧ r.icon = (w0.lookup "icon").getD (.str ""))
      ∧ (windO = none → r.wind_speed = .null)
      ∧ (∀ w, windO = some (.obj w) → r.wind_speed = (w.lookup "speed").getD .null)
      ∧ (sysO = none → r.country = .str "" ∧ r.sunrise = .null ∧ r.sunset = .null)
      ∧ (∀ s, sysO = some (.obj s) → r.country = (s.lookup "country").getD (.str "")
          ∧ r.sunrise = (s.lookup "sunrise").getD .null
          ∧ r.sunset = (s.lookup "sunset").getD .null) := by
  refine ⟨_, normalize_mkResponse city nameO mainO weatherO windO sysO rest hm hw hwind hs hrest,
    ?_, ?_, ?_, ?_, ?_, ?_, ?_, ?_⟩
  · rintro rfl; simp [memberGet]
  · rintro m rfl; simp [memberGet]
  · rintro rfl; simp [weatherGet]
  · rintro w0 ws rfl; simp [weatherGet]
  · rintro rfl; simp [memberGet]
  · rintro w rfl; simp [memberGet]
  · rintro rfl; simp [memberGet]
  · rintro s rfl; simp [memberGet]

/-- Witness for C1: a concrete response with `main` and `wind` absent and
`weather`/`sys` present, instantiating the theorem. -/
theorem missing_sections_witness :
    ∃ r, normalizeWeather "Lagos"
        (mkResponse (some (.str "Lagos")) none
          (some (.arr [.obj [("description", .str "light rain"), ("icon", .str "10d")]]))
          none (some (.obj [("country", .str "NG")]))
          [("timezone", .num 3600)]) = .ok r
      ∧ r.temperature = .null ∧ r.humidity = .null ∧ r.pressure = .null
      ∧ r.wind_speed = .null ∧ r.description = .str "light rain"
      ∧ r.country = .str "NG" := by
  obtain ⟨r, hok, hmain, -, -, hwth, hwind, -, -, hsys⟩ :=
    missing_sections_normalize_safely "Lagos" (some (.str "Lagos")) none
      (some (.arr [.obj [("description", .str "light rain"), ("icon", .str "10d")]]))
      none (some (.obj [("country", .str "NG")]))
      [("timezone", .num 3600)]
      (Or.inl rfl) (Or.inr (Or.inr ⟨_, _, rfl⟩)) (Or.inl rfl) (Or.inr ⟨_, rfl⟩)
      (by intro kv hm; simp at hm; subst hm; exact ⟨by decide, by decide, by decide, by decide, by decide⟩)
  obtain ⟨ht, hh, hp⟩ := hmain rfl
  refine ⟨r, hok, ht, hh, hp, (hwind rfl), ?_, ?_⟩
  · exact (hwth _ _ rfl).1.trans rfl
  · exact ((hsys _ rfl).1).trans rfl

lemma addEntry_keys (m : List (String × List ForecastEntry)) (d : String) (e : ForecastEntry) :
    (addEntry m d e).map Prod.fst =
      if d ∈ m.map Prod.fst then m.map Prod.fst else m.map Prod.fst ++ [d] := by
  induction m with
  | nil => simp [addEntry]
  | cons kv t ih =>
    obtain ⟨k, es⟩ := kv
    by_cases hk : k = d
    · subst hk; simp [addEntry]
    · simp only [addEntry, if_neg hk, List.map_cons, ih]
      by_cases hd : d ∈ t.map Prod.fst
      · simp [hd, Ne.symm hk]
      · simp [hd, Ne.symm hk]

lemma lookup_addEntry (m : List (String × List ForecastEntry)) (d : String) (e : ForecastEntry)
    (d' : String) :
    (addEntry m d e).lookup d' =
      if d' = d then some (((m.lookup d).getD []) ++ [e]) else m.lookup d' := by
  induction m with
  | nil =>
    simp only [addEntry, List.lookup]
    by_cases h : d' = d
    · simp [h]
    · simp [h, beq_false_of_ne h]
  | cons kv t ih =>
    obtain ⟨k, es⟩ := kv
    by_cases hk : k = d
    · subst hk
      by_cases h : d' = k
      · subst h; simp [addEntry, List.lookup]
      · simp [addEntry, List.lookup, beq_false_of_ne h, h]
    · have hdk : (d == k) = false := beq_false_of_ne fun hh => hk hh.symm
      by_cases h : d' = k
      · subst h
        simp [addEntry, if_neg hk, List.lookup, hk, hdk]
      · simp [addEntry, if_neg hk, List.lookup, beq_false_of_ne h, ih, hdk]

lemma byDate_snoc (f : List ForecastEntry) (e : ForecastEntry) :
    byDate (f ++ [e]) =
      if e.date = "" then byDate f else addEntry (byDate f) e.date e := by
  simp [byDate, List.foldl_append]

lemma mem_firstDedupAux (x : String) : ∀ (l seen : List String),
    x ∈ firstDedupAux seen l ↔ x ∈ l ∧ x ∉ seen := by
  intro l
  induction l with
  | nil => intro seen; simp [firstDedupAux]
  | cons d rest ih =>
    intro seen
    by_cases hd : d ∈ seen
    · rw [firstDedupAux, if_pos hd, ih]
      constructor
      · rintro ⟨h1, h2⟩; exact ⟨List.mem_cons_of_mem _ h1, h2⟩
      · rintro ⟨h1, h2⟩
        rcases List.mem_cons.mp h1 with rfl | h1
        · exact absurd hd h2
        · exact ⟨h1, h2⟩
    · rw [firstDedupAux, if_neg hd]
      by_cases hx : x = d
      · subst hx; simp [hd]
      · simp only [List.mem_cons, hx, false_or, ih, List.mem_cons]

lemma firstDedupAux_snoc (d : String) : ∀ (l seen : List String),
    firstDedupAux seen (l ++ [d]) =
      firstDedupAux seen l ++ (if d ∈ seen ∨ d ∈ l then [] else [d]) := by
  intro l
  induction l with
  | nil =>
    intro seen
    by_cases hd : d ∈ seen <;> simp [firstDedupAux, hd]
  | cons c rest ih =>
    intro seen
    by_cases hc : c ∈ seen
    · rw [List.cons_append, firstDedupAux, if_pos hc, firstDedupAux, if_pos hc, ih]
      by_cases hd : d ∈ seen ∨ d ∈ rest
      · rw [if_pos hd, if_pos]
        rcases hd with h | h
        · exact Or.inl h
        · exact Or.inr (List.mem_cons_of_mem _ h)
      · rw [if_neg hd, if_neg]
        rintro (h | h)
        · exact hd (Or.inl h)
        · rcases List.mem_cons.mp h with rfl | h
          · exact hd (Or.inl hc)
          · exact hd (Or.inr h)
    · rw [List.cons_append, firstDedupAux, if_neg hc, firstDedupAux, if_neg hc, ih]
      by_cases hd : d ∈ c :: seen ∨ d ∈ rest
      · rw [if_pos hd, if_pos, List.cons_append]
        rcases hd with h | h
        · rcases List.mem_cons.mp h with rfl | h
          · exact Or.inr (List.mem_cons_self _ _)
          · exact Or.inl h
        · exact Or.inr (List.mem_cons_of_mem _ h)
      · rw [if_neg hd, if_neg, List.cons_append]
        rintro (h | h)
        · exact hd (Or.inl (List.mem_cons_of_mem _ h))
        · rcases List.mem_cons.mp h with rfl | h
          · exact hd (Or.inl (List.mem_cons_self _ _))
          · exact hd (Or.inr h)

lemma firstDedup_snoc (l : List String) (d : String) :
    firstDedup (l ++ [d]) = if d ∈ l then firstDedup l else firstDedup l ++ [d] := by
  rw [firstDedup, firstDedup, firstDedupAux_snoc]
  by_cases hd : d ∈ l <;> simp [hd]

lemma mem_firstDedup (x : String) (l : List String) : x ∈ firstDedup l ↔ x ∈ l := by
  rw [firstDedup, mem_firstDedupAux]
  simp

lemma keys_byDate (f : List ForecastEntry) (hf : ∀ x ∈ f, x.date ≠ "") :
    (byDate f).map Prod.fst = firstDedup (f.map fun e => e.date) := by
  induction f using List.reverseRecOn with
  | nil => rfl
  | append_singleton t e ih =>
    have ht : ∀ x ∈ t, x.date ≠ "" := fun x hx => hf x (List.mem_append_left _ hx)
    have he : e.date ≠ "" := hf e (List.mem_append_right _ (List.mem_cons_self _ _))
    rw [byDate_snoc, if_neg he, addEntry_keys, ih ht]
    simp only [List.map_append, List.map_cons, List.map_nil]
    rw [firstDedup_snoc]
    by_cases hd : e.date ∈ t.map fun x => x.date
    · rw [if_pos ((mem_firstDedup _ _).mpr hd), if_pos hd]
    · rw [if_neg (fun hh => hd ((mem_firstDedup _ _).mp hh)), if_neg hd]

lemma groupOf_addEntry (m : List (String × List ForecastEntry)) (d0 : String) (e : ForecastEntry)
    (d : String) :
    groupOf (addEntry m d0 e) d = if d = d0 then groupOf m d0 ++ [e] else groupOf m d := by
  rw [groupOf, lookup_addEntry]
  by_cases h : d = d0
  · subst h; simp [groupOf]
  · simp [h, groupOf]

lemma groupOf_byDate (f : List ForecastEntry) (hf : ∀ x ∈ f, x.date ≠ "") (d : String) :
    groupOf (byDate f) d = f.filter fun e => e.date = d := by
  induction f using List.reverseRecOn with
  | nil => rfl
  | append_singleton t e ih =>
    have ht : ∀ x ∈ t, x.date ≠ "" := fun x hx => hf x (List.mem_append_left _ hx)
    have he : e.date ≠ "" := hf e (List.mem_append_right _ (List.mem_cons_self _ _))
    rw [byDate_snoc, if_neg he, groupOf_addEntry, List.filter_append]
    by_cases h : d = e.date
    · subst h
      rw [if_pos rfl, ih ht]
      simp [List.filter]
    · rw [if_neg h, ih ht]
      have hne : ¬ e.date = d := fun hh => h hh.symm
      simp [List.filter, hne]

/-- C2: the daily summary computed by `_update_ui` equals the reference
definition from the specification for every forecast-entry sequence whose
derived dates are non-empty (which the "YYYY-MM-DD HH:MM:SS" timestamps of
the data model guarantee); moreover, on the concrete example of one date with
entries at temperatures 10, 12 and 14 and no "12:00:00" timestamp, the
summary temperature is 12.0 (the rounded mean). -/
theorem daily_summary_matches_reference :
    (∀ forecast : List ForecastEntry, (∀ e ∈ forecast, e.date ≠ "") →
        dailySummaries forecast = dailySummariesSpec forecast)
    ∧ dailySummaries
        [⟨"2025-09-03 09:00:00", "2025-09-03", some 10, some 50, "clouds", "03d"⟩,
         ⟨"2025-09-03 15:00:00", "2025-09-03", some 12, some 55, "clouds", "03d"⟩,
         ⟨"2025-09-03 18:00:00", "2025-09-03", some 14, some 60, "rain", "10d"⟩] =
      [⟨"2025-09-03", some 12, "clouds", "03d"⟩] := by
  constructor
  · intro f hf
    have hfun : (fun d => summarize (groupOf (byDate f) d) d) =
        (fun d => summarize (f.filter fun e => e.date = d) d) :=
      funext fun d => by rw [groupOf_byDate f hf d]
    simp only [dailySummaries, dailySummariesSpec]
    rw [keys_byDate f hf, hfun]
  · have h : dailySummaries
        [⟨"2025-09-03 09:00:00", "2025-09-03", some 10, some 50, "clouds", "03d"⟩,
         ⟨"2025-09-03 15:00:00", "2025-09-03", some 12, some 55, "clouds", "03d"⟩,
         ⟨"2025-09-03 18:00:00", "2025-09-03", some 14, some 60, "rain", "10d"⟩] =
        [⟨"2025-09-03", some (pyRound1 (([(10 : ℚ), 12, 14]).sum / ((3 : ℕ) : ℚ))),
          "clouds", "03d"⟩] := rfl
    have hq : pyRound1 (([(10 : ℚ), 12, 14]).sum / ((3 : ℕ) : ℚ)) = 12 := by
      norm_num [pyRound1, List.sum_cons, List.sum_nil]
    rw [h, hq]

/-- Witness for C2: the equivalence applied to a concrete two-day forecast,
one day carrying a "12:00:00" entry and the other not. -/
theorem daily_summary_matches_reference_witness :
    dailySummaries
        [⟨"2025-09-04 06:00:00", "2025-09-04", some 9, some 70, "mist", "50d"⟩,
         ⟨"2025-09-03 12:00:00", "2025-09-03", some 21, some 40, "clear sky", "01d"⟩,
         ⟨"2025-09-04 18:00:00", "2025-09-04", some 11, some 60, "mist", "50d"⟩] =
      dailySummariesSpec
        [⟨"2025-09-04 06:00:00", "2025-09-04", some 9, some 70, "mist", "50d"⟩,
         ⟨"2025-09-03 12:00:00", "2025-09-03", some 21, some 40, "clear sky", "01d"⟩,
         ⟨"2025-09-04 18:00:00", "2025-09-04", some 11, some 60, "mist", "50d"⟩] :=
  daily_summary_matches_reference.1 _ (by decide)

/-- C3: `detect_city_via_ip` returns the city of the first provider that
yields a non-empty one, consults a provider only after every earlier one
raised or returned an empty/absent city, returns `none` (not an error) when
all providers fail or return empty, and in particular returns "Lagos" without
the third provider's outcome mattering when the first fails and the second
returns "Lagos". -/
theorem ip_detection_first_nonempty :
    (∀ (pre : List Transport) (t : Transport) (post : List Transport) (c : String),
        (∀ q ∈ pre, providerCity q = none) → providerCity t = some c →
        detect_city_via_ip (pre ++ t :: post) = some c)
    ∧ (∀ ps : List Transport, (∀ q ∈ ps, providerCity q = none) →
        detect_city_via_ip ps = none)
    ∧ (∀ p3 : Transport,
        detect_city_via_ip [Transport.netFail "connection refused",
          Transport.response 200 (some (.obj [("city", .str "Lagos")])), p3] = some "Lagos") := by
  refine ⟨?_, ?_, ?_⟩
  · intro pre t post c hpre ht
    induction pre with
    | nil => simp [detect_city_via_ip, ht]
    | cons q rest ih =>
      have hq : providerCity q = none := hpre q (List.mem_cons_self _ _)
      rw [List.cons_append]
      simp only [detect_city_via_ip, hq]
      exact ih fun r hr => hpre r (List.mem_cons_of_mem _ hr)
  · intro ps hps
    induction ps with
    | nil => rfl
    | cons q rest ih =>
      have hq : providerCity q = none := hps q (List.mem_cons_self _ _)
      simp only [detect_city_via_ip, hq]
      exact ih fun r hr => hps r (List.mem_cons_of_mem _ hr)
  · intro p3
    rfl

/-- Witness for C3: the first conjunct applied to a failing first provider, a
second provider returning "Lagos", and a (unreached) third provider. -/
theorem ip_detection_witness :
    detect_city_via_ip [Transport.netFail "timeout",
      Transport.response 200 (some (.obj [("city", .str "Lagos")])),
      Transport.response 200 (some (.obj [("city", .str "Paris")]))] = some "Lagos" :=
  ip_detection_first_nonempty.1 [Transport.netFail "timeout"] _
    [Transport.response 200 (some (.obj [("city", .str "Paris")]))] "Lagos"
    (by
      intro q hq
      simp only [List.mem_singleton] at hq
      subst hq
      rfl)
    rfl

/-- C9: `load_favorites` never raises — it is a total function of the file
outcome — and an absent, unreadable or unparseable `favorites.json` yields
the empty list. -/
theorem corrupt_favorites_yield_empty :
    load_favorites none = Json.arr []
    ∧ ∀ msg : String, load_favorites (some (.error msg)) = Json.arr [] :=
  ⟨rfl, fun _ => rfl⟩

/-- Total dict lookup used to state hypotheses about response objects. -/
def objGet (j : Json) (k : String) : Json :=
  match j with
  | .obj kvs => (kvs.lookup k).getD .null
  | _ => .null

lemma normalize_ok_city (city : String) (data : Json) (r : CurrentWeather)
    (h : normalizeWeather city data = .ok r) :
    r.city = pyOr (objGet data "name") (.str city) := by
  cases data with
  | obj kvs =>
    rw [normalizeWeather] at h
    rw [exceptBind_ok] at h; obtain ⟨nameV, hn, h⟩ := h
    rw [exceptBind_ok] at h; obtain ⟨v2, -, h⟩ := h
    rw [exceptBind_ok] at h; obtain ⟨v3, -, h⟩ := h
    rw [exceptBind_ok] at h; obtain ⟨v4, -, h⟩ := h
    rw [exceptBind_ok] at h; obtain ⟨v5, -, h⟩ := h
    rw [exceptBind_ok] at h; obtain ⟨v6, -, h⟩ := h
    rw [exceptBind_ok] at h; obtain ⟨v7, -, h⟩ := h
    rw [exceptBind_ok] at h; obtain ⟨v8, -, h⟩ := h
    rw [exceptBind_ok] at h; obtain ⟨v9, -, h⟩ := h
    rw [exceptBind_ok] at h; obtain ⟨v10, -, h⟩ := h
    rw [exceptBind_ok] at h; obtain ⟨v11, -, h⟩ := h
    rw [exceptBind_ok] at h; obtain ⟨v12, -, h⟩ := h
    rw [exceptBind_ok] at h; obtain ⟨v13, -, h⟩ := h
    rw [exceptBind_ok] at h; obtain ⟨v14, -, h⟩ := h
    rw [exceptBind_ok] at h; obtain ⟨v15, -, h⟩ := h
    rw [exceptBind_ok] at h; obtain ⟨v16, -, h⟩ := h
    rw [exceptBind_ok] at h; obtain ⟨v17, -, h⟩ := h
    have hr := Except.ok.inj h
    have hv : nameV = (kvs.lookup "name").getD .null := (Except.ok.inj hn).symm
    rw [← hr, hv]
    rfl
  | null => simp [normalizeWeather, Bind.bind, Except.bind, Json.dget] at h
  | bool b => simp [normalizeWeather, Bind.bind, Except.bind, Json.dget] at h
  | num q => simp [normalizeWeather, Bind.bind, Except.bind, Json.dget] at h
  | str s => simp [normalizeWeather, Bind.bind, Except.bind, Json.dget] at h
  | arr xs => simp [normalizeWeather, Bind.bind, Except.bind, Json.dget] at h

/-- C10: whenever the response's "name" field is absent or falsy, the record
returned by `fetch_weather_by_city` has the requested city argument as its
city field; consequently the city field is non-empty whenever the argument
is. -/
theorem city_falls_back_to_argument (city : String) (data : Json) (r : CurrentWeather)
    (hok : normalizeWeather city data = .ok r)
    (hname : truthy (objGet data "name") = false) :
    r.city = Json.str city ∧ (city ≠ "" → r.city ≠ Json.str "") := by
  have hc := normalize_ok_city city data r hok
  rw [pyOr, hname] at hc
  simp only [Bool.false_eq_true, if_false] at hc
  refine ⟨hc, fun hne heq => ?_⟩
  rw [hc] at heq
  exact hne (Json.str.inj heq)

/-- Witness for C10: a response object with no "name" key at all. -/
theorem city_falls_back_witness :
    ∃ r, normalizeWeather "Kano" (Json.obj []) = .ok r ∧ r.city = Json.str "Kano" := by
  refine ⟨_, rfl, ?_⟩
  exact (city_falls_back_to_argument "Kano" (Json.obj []) _ rfl (by decide)).1

/-- C8: favorites mutations are idempotent on the persisted set — adding a
city already present or removing an absent selection leaves the list and the
file unchanged, a new city is appended exactly once so no duplicate is ever
introduced, a present selection is erased — and every mutation that does
change the list immediately saves the full new list. -/
theorem favorites_mutations_idempotent :
    (∀ st : AppState, pyOrS ((st.current_city).getD "") (pyStrip st.cityVar) ∈ st.favorites →
        (add_favorite st).favorites = st.favorites
        ∧ (add_favorite st).savedFavorites = st.savedFavorites)
    ∧ (∀ st : AppState,
        pyOrS ((st.current_city).getD "") (pyStrip st.cityVar) ∉ st.favorites →
        pyOrS ((st.current_city).getD "") (pyStrip st.cityVar) ≠ "" →
        (add_favorite st).favorites =
          st.favorites ++ [pyOrS ((st.current_city).getD "") (pyStrip st.cityVar)]
        ∧ (add_favorite st).savedFavorites = some ((add_favorite st).favorites))
    ∧ (∀ st : AppState, st.favorites.Nodup → (add_favorite st).favorites.Nodup)
    ∧ (∀ st : AppState, pyStrip st.favsVar ∉ st.favorites →
        (remove_favorite st).favorites = st.favorites
        ∧ (remove_favorite st).savedFavorites = st.savedFavorites)
    ∧ (∀ st : AppState, pyStrip st.favsVar ∈ st.favorites → pyStrip st.favsVar ≠ "" →
        (remove_favorite st).favorites = st.favorites.erase (pyStrip st.favsVar)
        ∧ (remove_favorite st).savedFavorites = some ((remove_favorite st).favorites))
    ∧ (∀ st : AppState, (add_favorite st).favorites ≠ st.favorites →
        (add_favorite st).savedFavorites = some ((add_favorite st).favorites))
    ∧ (∀ st : AppState, (remove_favorite st).favorites ≠ st.favorites →
        (remove_favorite st).savedFavorites = some ((remove_favorite st).favorites)) := by
  refine ⟨?_, ?_, ?_, ?_, ?_, ?_, ?_⟩
  · intro st hmem
    by_cases hc : pyOrS ((st.current_city).getD "") (pyStrip st.cityVar) = ""
    · simp [add_favorite, hc]
    · simp [add_favorite, hc, hmem]
  · intro st hmem hne
    simp [add_favorite, hne, hmem]
  · intro st hnd
    by_cases hc : pyOrS ((st.current_city).getD "") (pyStrip st.cityVar) = ""
    · simpa [add_favorite, hc] using hnd
    · by_cases hmem : pyOrS ((st.current_city).getD "") (pyStrip st.cityVar) ∈ st.favorites
      · simpa [add_favorite, hc, hmem] using hnd
      · simp [add_favorite, hc, hmem, List.nodup_append, hnd]
  · intro st hmem
    by_cases hc : pyStrip st.favsVar = ""
    · simp [remove_favorite, hc]
    · simp [remove_favorite, hc, hmem]
  · intro st hmem hne
    simp [remove_favorite, hne, hmem]
  · intro st hchg
    by_cases hc : pyOrS ((st.current_city).getD "") (pyStrip st.cityVar) = ""
    · exact absurd (by simp [add_favorite, hc]) hchg
    · by_cases hmem : pyOrS ((st.current_city).getD "") (pyStrip st.cityVar) ∈ st.favorites
      · exact absurd (by simp [add_favorite, hc, hmem]) hchg
      · simp [add_favorite, hc, hmem]
  · intro st hchg
    by_cases hc : pyStrip st.favsVar = ""
    · exact absurd (by simp [remove_favorite, hc]) hchg
    · by_cases hmem : pyStrip st.favsVar ∈ st.favorites
      · simp [remove_favorite, hc, hmem]
      · exact absurd (by simp [remove_favorite, hc, hmem]) hchg

/-- Witness for C8: adding an already-present city and removing an absent
selection on concrete states leave the list unchanged. -/
theorem favorites_mutations_witness :
    (add_favorite ⟨"Ready", some "Lagos", "", "metric", "", ["Lagos"], ["Lagos"], none, none,
        "", "", "", "", "", [], []⟩).favorites = ["Lagos"]
    ∧ (remove_favorite ⟨"Ready", some "Lagos", "", "metric", "Kano", ["Lagos"], ["Lagos"], none,
        none, "", "", "", "", "", [], []⟩).favorites = ["Lagos"] := by
  constructor
  · exact (favorites_mutations_idempotent.1 _ (by decide)).1
  · exact (favorites_mutations_idempotent.2.2.2.1 _ (by decide)).1

/-- C7: a failed current-weather fetch only appends the modal error dialog
and sets the status to "Error" — every rendered field, the current city and
the persisted files stay exactly as they were — while a forecast-only
failure is swallowed: it degrades the forecast to the empty sequence and the
current-conditions update still runs, ending in a fresh "Last updated"
status. -/
theorem fetch_failure_keeps_state :
    (∀ (e : PyErr) (fc : Except PyErr (List ForecastEntry)) (now : String) (saveLast : Bool)
        (st : AppState),
        load_weather_thread (.error e) fc now saveLast st =
          { st with status := "Error", dialogs := st.dialogs ++ [errorDialog e] })
    ∧ (∀ (e : PyErr) (fc : Except PyErr (List ForecastEntry)) (now : String) (saveLast : Bool)
        (st : AppState),
        (load_weather_thread (.error e) fc now saveLast st).cityText = st.cityText
        ∧ (load_weather_thread (.error e) fc now saveLast st).descText = st.descText
        ∧ (load_weather_thread (.error e) fc now saveLast st).tempText = st.tempText
        ∧ (load_weather_thread (.error e) fc now saveLast st).humText = st.humText
        ∧ (load_weather_thread (.error e) fc now saveLast st).nextText = st.nextText
        ∧ (load_weather_thread (.error e) fc now saveLast st).summaries = st.summaries
        ∧ (load_weather_thread (.error e) fc now saveLast st).current_city = st.current_city
        ∧ (load_weather_thread (.error e) fc now saveLast st).savedLastCity = st.savedLastCity
        ∧ (load_weather_thread (.error e) fc now saveLast st).savedFavorites = st.savedFavorites
        ∧ (load_weather_thread (.error e) fc now saveLast st).favorites = st.favorites
        ∧ (load_weather_thread (.error e) fc now saveLast st).status = "Error")
    ∧ (∀ (cur : WeatherView) (ferr : PyErr) (now : String) (saveLast : Bool) (st : AppState),
        load_weather_thread (.ok cur) (.error ferr) now saveLast st =
          update_ui now cur [] saveLast st
        ∧ (load_weather_thread (.ok cur) (.error ferr) now saveLast st).status =
            "Last updated: " ++ now) := by
  refine ⟨?_, ?_, ?_⟩
  · intro e fc now saveLast st
    rfl
  · intro e fc now saveLast st
    exact ⟨rfl, rfl, rfl, rfl, rfl, rfl, rfl, rfl, rfl, rfl, rfl⟩
  · intro cur ferr now saveLast st
    exact ⟨rfl, rfl⟩

lemma pyOrS_self (a : String) : pyOrS a "" = a := by
  by_cases h : a = "" <;> simp [pyOrS, h]

lemma strHasSub_of_empty (pat : String) (h : pat.data ≠ []) : strHasSub "" pat = false := by
  show pat.data.isEmpty = false
  simp [List.isEmpty_eq_false, h]

lemma rain_mem_iff (description : String) :
    Alert.rain ∈ rainAlerts description ↔
      (strHasSub (strLower description) "rain" = true
        ∨ strHasSub (strLower description) "drizzle" = true
        ∨ strHasSub (strLower description) "shower" = true) := by
  simp only [rainAlerts, pyOrS_self]
  by_cases hd : strLower description = ""
  · rw [hd]
    have h1 : strHasSub "" "rain" = false := strHasSub_of_empty _ (by decide)
    have h2 : strHasSub "" "drizzle" = false := strHasSub_of_empty _ (by decide)
    have h3 : strHasSub "" "shower" = false := strHasSub_of_empty _ (by decide)
    simp [h1, h2, h3]
  · have hne : (strLower description != "") = true := bne_iff_ne.mpr hd
    rw [hne, Bool.true_and]
    by_cases hc : (strHasSub (strLower description) "rain"
        || strHasSub (strLower description) "drizzle"
        || strHasSub (strLower description) "shower") = true
    · rw [if_pos hc]
      simp only [Bool.or_eq_true] at hc
      have hc2 := or_assoc.mp hc
      simp [hc2]
    · rw [if_neg hc]
      simp only [Bool.or_eq_true, not_or, Bool.not_eq_true] at hc
      simp [hc.1.1, hc.1.2, hc.2]

lemma mem_rainAlerts_eq (a : Alert) (d : String) (h : a ∈ rainAlerts d) : a = Alert.rain := by
  simp only [rainAlerts] at h
  split at h
  · simpa using h
  · simp at h

lemma rain_not_threshold (units : String) (t : Option ℚ) :
    Alert.rain ∉ thresholdAlerts units t := by
  cases t with
  | none => simp [thresholdAlerts]
  | some q =>
    simp only [thresholdAlerts]
    split_ifs <;> simp

lemma heat_mem_iff (units : String) (t : Option ℚ) :
    Alert.heat ∈ thresholdAlerts units t ↔
      ((units = "metric" ∧ ∃ q, t = some q ∧ 35 ≤ q)
        ∨ (units = "imperial" ∧ ∃ q, t = some q ∧ 95 ≤ q)) := by
  have hmi : ("metric" : String) ≠ "imperial" := by decide
  cases t with
  | none => simp [thresholdAlerts]
  | some q =>
    by_cases hm : units = "metric"
    · subst hm
      by_cases h35 : (35 : ℚ) ≤ q
      · simp [thresholdAlerts, h35]
      · by_cases h0 : q ≤ 0 <;> simp [thresholdAlerts, h35, h0, hmi]
    · by_cases hi : units = "imperial"
      · subst hi
        by_cases h95 : (95 : ℚ) ≤ q <;> simp [thresholdAlerts, hm, h95]
      · simp [thresholdAlerts, hm, hi]

lemma cold_mem_iff (units : String) (t : Option ℚ) :
    Alert.cold ∈ thresholdAlerts units t ↔
      (units = "metric" ∧ ∃ q, t = some q ∧ q ≤ 0) := by
  cases t with
  | none => simp [thresholdAlerts]
  | some q =>
    by_cases hm : units = "metric"
    · subst hm
      by_cases h35 : (35 : ℚ) ≤ q
      · have h0 : ¬ q ≤ 0 := by linarith
        simp [thresholdAlerts, h35, h0]
      · by_cases h0 : q ≤ 0 <;> simp [thresholdAlerts, h35, h0]
    · by_cases hi : units = "imperial"
      · subst hi
        by_cases h95 : (95 : ℚ) ≤ q <;> simp [thresholdAlerts, hm, h95]
      · simp [thresholdAlerts, hm, hi]

lemma thresholdAlerts_other (units : String) (h1 : units ≠ "metric")
    (h2 : units ≠ "imperial") (t : Option ℚ) : thresholdAlerts units t = [] := by
  cases t <;> simp [thresholdAlerts, h1, h2]

/-- C6: after a successful render the notification policy fires the rain
informational alert exactly when the lower-cased description contains "rain",
"drizzle" or "shower"; the heat warning exactly when the temperature is at
least 35 under metric or at least 95 under imperial; the cold informational
exactly when the temperature is at most 0 under metric; no threshold alert
ever fires under the standard (Kelvin) unit system; and metric at temperature
36 with description "clear sky" fires exactly the heat warning, not the rain
alert. -/
theorem notification_policy_thresholds :
    ∀ (units description : String) (t : Option ℚ),
      (Alert.rain ∈ evalAlerts units description t ↔
        (strHasSub (strLower description) "rain" = true
          ∨ strHasSub (strLower description) "drizzle" = true
          ∨ strHasSub (strLower description) "shower" = true))
      ∧ (Alert.heat ∈ evalAlerts units description t ↔
          ((units = "metric" ∧ ∃ q, t = some q ∧ 35 ≤ q)
            ∨ (units = "imperial" ∧ ∃ q, t = some q ∧ 95 ≤ q)))
      ∧ (Alert.cold ∈ evalAlerts units description t ↔
          (units = "metric" ∧ ∃ q, t = some q ∧ q ≤ 0))
      ∧ (units = "standard" → ∀ a ∈ evalAlerts units description t, a = Alert.rain)
      ∧ evalAlerts "metric" "clear sky" (some 36) = [Alert.heat] := by
  intro units description t
  refine ⟨?_, ?_, ?_, ?_, ?_⟩
  · rw [evalAlerts, List.mem_append]
    constructor
    · rintro (h | h)
      · exact (rain_mem_iff description).mp h
      · exact absurd h (rain_not_threshold units t)
    · intro h
      exact Or.inl ((rain_mem_iff description).mpr h)
  · rw [evalAlerts, List.mem_append]
    constructor
    · rintro (h | h)
      · exact absurd (mem_rainAlerts_eq _ _ h) (by decide)
      · exact (heat_mem_iff units t).mp h
    · intro h
      exact Or.inr ((heat_mem_iff units t).mpr h)
  · rw [evalAlerts, List.mem_append]
    constructor
    · rintro (h | h)
      · exact absurd (mem_rainAlerts_eq _ _ h) (by decide)
      · exact (cold_mem_iff units t).mp h
    · intro h
      exact Or.inr ((cold_mem_iff units t).mpr h)
  · rintro rfl a ha
    rw [evalAlerts, List.mem_append] at ha
    rcases ha with h | h
    · exact mem_rainAlerts_eq _ _ h
    · rw [thresholdAlerts_other "standard" (by decide) (by decide)] at h
      simp at h
  · have hr : rainAlerts "clear sky" = [] := by decide
    have hth : thresholdAlerts "metric" (some 36) = [Alert.heat] := by
      norm_num [thresholdAlerts]
    rw [evalAlerts, hr, hth]
    rfl

/-- Witness for C6: a rainy description fires the rain alert even under the
standard unit system, while no threshold alert fires there. -/
theorem notification_policy_witness :
    Alert.rain ∈ evalAlerts "standard" "heavy rain" (some 300)
    ∧ Alert.heat ∉ evalAlerts "standard" "clear" (some 300) := by
  constructor
  · exact (notification_policy_thresholds "standard" "heavy rain" (some 300)).1.mpr
      (Or.inl (by decide))
  · intro hm
    have h := (notification_policy_thresholds "standard" "clear" (some 300)).2.2.2.1 rfl
      Alert.heat hm
    exact absurd h (by decide)

/-- Counterexample to C4 as stated: the normalization of
`fetch_weather_by_city` reads `data.get("timezone", 0)`
(weather_fetcher.py line 100), so in a response with no "timezone" key the
normalized record's timezone — a numeric field of the data model — is the
number 0, not a null placeholder. -/
theorem missing_timezone_becomes_zero :
    (normalizeWeather "Lagos" (Json.obj [])).map (fun r => r.timezone) = .ok (Json.num 0)
    ∧ Json.num 0 ≠ Json.null := ⟨rfl, by simp⟩

/-- C4 (amended): every numeric field the provider omitted, with the single
exception of the UTC-offset `timezone` (which `data.get("timezone", 0)`
silently defaults to 0), stays `None` in the normalized record — never zero
and never an empty string; the renderer then prints the `None` placeholder
rather than a number; a `None` temperature never reaches the threshold
arithmetic (no heat/cold alert fires, whereas an actual zero would fire the
metric cold alert); and the daily-mean computation ignores
`None`-temperature entries instead of counting them as zero. -/
theorem missing_numeric_never_zero :
    (∀ (city : String) (nameO weatherO : Option Json) (rest : List (String × Json)),
        (weatherO = none ∨ weatherO = some (.arr []) ∨
          ∃ w0 ws, weatherO = some (.arr (.obj w0 :: ws))) →
        restOK rest →
        ∃ r, normalizeWeather city (mkResponse nameO none weatherO none none rest) = .ok r
          ∧ r.temperature = Json.null ∧ r.humidity = Json.null ∧ r.pressure = Json.null
          ∧ r.wind_speed = Json.null ∧ r.sunrise = Json.null ∧ r.sunset = Json.null
          ∧ r.temperature ≠ Json.num 0 ∧ r.temperature ≠ Json.str ""
          ∧ (rest.lookup "timezone" = none → r.timezone = Json.num 0))
    ∧ (∀ (now : String) (cur : WeatherView) (forecast : List ForecastEntry) (saveLast : Bool)
        (st : AppState), cur.temperature = none →
        (update_ui now cur forecast saveLast st).tempText =
          "Temperature: None" ++ unitLabel st.units)
    ∧ (∀ (now : String) (cur : WeatherView) (forecast : List ForecastEntry) (saveLast : Bool)
        (st : AppState), cur.humidity = none →
        (update_ui now cur forecast saveLast st).humText = "Humidity: None%")
    ∧ (∀ units d : String,
        Alert.heat ∉ evalAlerts units d none ∧ Alert.cold ∉ evalAlerts units d none)
    ∧ Alert.cold ∈ evalAlerts "metric" "clear" (some 0)
    ∧ (∀ (entries : List ForecastEntry) (e : ForecastEntry) (d : String), entries ≠ [] →
        e.temperature = none → strEndsWith e.dt_txt "12:00:00" = false →
        summarize (entries ++ [e]) d = summarize entries d) := by
  refine ⟨?_, ?_, ?_, ?_, ?_, ?_⟩
  · intro city nameO weatherO rest hw hrest
    refine ⟨_, normalize_mkResponse city nameO none weatherO none none rest
      (Or.inl rfl) hw (Or.inl rfl) (Or.inl rfl) hrest, ?_⟩
    simp [memberGet]
    intro h
    rw [lookup_eq_none_of_keys fun kv hm hh => h kv.1 kv.2 hm hh.symm]
    rfl
  · intro now cur forecast saveLast st h
    simp only [update_ui, h, pyStrOpt]
    rfl
  · intro now cur forecast saveLast st h
    simp only [update_ui, h, pyStrOpt]
    rfl
  · intro units d
    constructor <;> intro hm <;>
    · rw [evalAlerts, List.mem_append] at hm
      rcases hm with h | h
      · exact absurd (mem_rainAlerts_eq _ _ h) (by decide)
      · simp [thresholdAlerts] at h
  · rw [evalAlerts, List.mem_append]
    exact Or.inr ((cold_mem_iff "metric" (some 0)).mpr ⟨rfl, 0, rfl, le_refl 0⟩)
  · intro entries e d hne hnone hends
    have hfa : List.find? (fun e2 => strEndsWith e2.dt_txt "12:00:00") (entries ++ [e]) =
        List.find? (fun e2 => strEndsWith e2.dt_txt "12:00:00") entries := by
      simp [List.find?_append, hends]
    rw [summarize, summarize, hfa]
    cases hfind : List.find? (fun e2 => strEndsWith e2.dt_txt "12:00:00") entries with
    | some e2 => rfl
    | none =>
      have hfm : List.filterMap (fun e2 => e2.temperature) (entries ++ [e]) =
          List.filterMap (fun e2 => e2.temperature) entries := by
        simp [List.filterMap_append, hnone]
      have hh : (entries ++ [e]).head? = entries.head? :=
        List.head?_append_of_ne_nil _ hne
      rw [hfm, hh]

/-- Witness for C4: a fully empty response keeps the temperature `None` (not
zero), and appending a `None`-temperature entry to a day leaves its summary
untouched. -/
theorem missing_numeric_witness :
    (∃ r, normalizeWeather "Abuja" (mkResponse none none none none none []) = .ok r
      ∧ r.temperature = Json.null ∧ r.temperature ≠ Json.num 0)
    ∧ summarize ([⟨"2025-09-03 09:00:00", "2025-09-03", some 10, some 50, "clouds", "03d"⟩] ++
        [⟨"2025-09-03 21:00:00", "2025-09-03", none, none, "clouds", "03d"⟩]) "2025-09-03" =
      summarize [⟨"2025-09-03 09:00:00", "2025-09-03", some 10, some 50, "clouds", "03d"⟩]
        "2025-09-03" := by
  constructor
  · obtain ⟨r, hok, h1, -, -, -, -, -, h7, -, -⟩ :=
      missing_numeric_never_zero.1 "Abuja" none none [] (Or.inl rfl)
        (fun kv hk => absurd hk (List.not_mem_nil kv))
    exact ⟨r, hok, h1, h7⟩
  · exact missing_numeric_never_zero.2.2.2.2.2 _ _ _ (by decide) rfl (by decide)

lemma string_data_append (a b : String) : (a ++ b).data = a.data ++ b.data := by
  cases a; cases b; rfl

lemma string_append_ne (a b c : String) (h : a.data.head? ≠ c.data.head?)
    (ha : a.data ≠ []) : a ++ b ≠ c := by
  intro he
  apply h
  rw [← he, string_data_append, List.head?_append_of_ne_nil _ ha]

lemma string_append_ne_append (a b c d : String) (h : a.data.head? ≠ c.data.head?)
    (ha : a.data ≠ []) (hc : c.data ≠ []) : a ++ b ≠ c ++ d := by
  intro he
  apply h
  have h1 := congrArg (fun s => s.data.head?) he
  simpa [string_data_append, List.head?_append_of_ne_nil _ ha,
    List.head?_append_of_ne_nil _ hc] using h1

/-- Prefix test on the character lists of two strings, used to classify the
error-message forms of the taxonomy. -/
def startsWithL (p s : String) : Bool := p.data.isPrefixOf s.data

lemma isPrefixOf_self_append (l t : List Char) : l.isPrefixOf (l ++ t) = true := by
  induction l with
  | nil => cases t <;> rfl
  | cons c cs ih => simp [List.isPrefixOf, ih]

lemma startsWithL_self (p m : String) : startsWithL p (p ++ m) = true := by
  rw [startsWithL, string_data_append]
  exact isPrefixOf_self_append _ _

lemma not_network_prefix_api (m : String) :
    startsWithL "Network error: " ("API error: " ++ m) = false := by
  rw [startsWithL, string_data_append]
  rfl

lemma not_api_prefix_network (m : String) :
    startsWithL "API error: " ("Network error: " ++ m) = false := by
  rw [startsWithL, string_data_append]
  rfl

lemma dget_error (j : Json) (k : String) (ε : PyErr) (h : j.dget k = .error ε) :
    ε = .attributeError := by
  cases j <;> simp_all [Json.dget]

lemma dgetD_error (j : Json) (k : String) (d : Json) (ε : PyErr)
    (h : j.dgetD k d = .error ε) : ε = .attributeError := by
  cases j <;> simp_all [Json.dgetD]

lemma index0_error (j : Json) (ε : PyErr) (h : j.index0 = .error ε) : ε = .typeError := by
  cases j with
  | arr xs => cases xs <;> simp_all [Json.index0]
  | null => simp_all [Json.index0]
  | bool b => simp_all [Json.index0]
  | num q => simp_all [Json.index0]
  | str s => simp_all [Json.index0]
  | obj kvs => simp_all [Json.index0]

/-- Whatever exception the normalizer raises is an attribute or type error,
never a `RuntimeError`. -/
lemma normalize_error_kind (city : String) (data : Json) (ε : PyErr)
    (h : normalizeWeather city data = .error ε) :
    ε = .attributeError ∨ ε = .typeError := by
  rw [normalizeWeather] at h
  rw [exceptBind_error] at h
  rcases h with h | ⟨v1, -, h⟩
  · exact Or.inl (dget_error _ _ _ h)
  rw [exceptBind_error] at h
  rcases h with h | ⟨v2, -, h⟩
  · exact Or.inl (dget_error _ _ _ h)
  rw [exceptBind_error] at h
  rcases h with h | ⟨v3, -, h⟩
  · exact Or.inl (dgetD_error _ _ _ _ h)
  rw [exceptBind_error] at h
  rcases h with h | ⟨v4, -, h⟩
  · exact Or.inl (dget_error _ _ _ h)
  rw [exceptBind_error] at h
  rcases h with h | ⟨v5, -, h⟩
  · exact Or.inl (dget_error _ _ _ h)
  rw [exceptBind_error] at h
  rcases h with h | ⟨v6, -, h⟩
  · exact Or.inl (dget_error _ _ _ h)
  rw [exceptBind_error] at h
  rcases h with h | ⟨v7, -, h⟩
  · exact Or.inl (dget_error _ _ _ h)
  rw [exceptBind_error] at h
  rcases h with h | ⟨v8, -, h⟩
  · exact Or.inl (dget_error _ _ _ h)
  rw [exceptBind_error] at h
  rcases h with h | ⟨v9, -, h⟩
  · exact Or.inr (index0_error _ _ h)
  rw [exceptBind_error] at h
  rcases h with h | ⟨v10, -, h⟩
  · exact Or.inl (dgetD_error _ _ _ _ h)
  rw [exceptBind_error] at h
  rcases h with h | ⟨v11, -, h⟩
  · exact Or.inl (dgetD_error _ _ _ _ h)
  rw [exceptBind_error] at h
  rcases h with h | ⟨v12, -, h⟩
  · exact Or.inl (dget_error _ _ _ h)
  rw [exceptBind_error] at h
  rcases h with h | ⟨v13, -, h⟩
  · exact Or.inl (dget_error _ _ _ h)
  rw [exceptBind_error] at h
  rcases h with h | ⟨v14, -, h⟩
  · exact Or.inl (dget_error _ _ _ h)
  rw [exceptBind_error] at h
  rcases h with h | ⟨v15, -, h⟩
  · exact Or.inl (dget_error _ _ _ h)
  rw [exceptBind_error] at h
  rcases h with h | ⟨v16, -, h⟩
  · exact Or.inl (dgetD_error _ _ _ _ h)
  rw [exceptBind_error] at h
  rcases h with h | ⟨v17, -, h⟩
  · exact Or.inl (dgetD_error _ _ _ _ h)
  simp [pure, Except.pure] at h

lemma fetch_no_key (apiKey : Option String) (t : Transport) (city units : String)
    (h : apiKey.getD "" = "") :
    fetch_weather_by_city apiKey t city units = .error (.runtimeError keyMsg) := by
  simp [fetch_weather_by_city, raise_if_no_key, h, Bind.bind, Except.bind]

lemma fetch_with_key (apiKey : Option String) (t : Transport) (city units : String)
    (h : apiKey.getD "" ≠ "") :
    fetch_weather_by_city apiKey t city units = get_json t >>= normalizeWeather city := by
  simp [fetch_weather_by_city, raise_if_no_key, h, Bind.bind, Except.bind]

/-- The four result shapes of a keyed fetch, by transport outcome. -/
lemma fetch_result_shape (apiKey : Option String) (t : Transport) (city units : String)
    (h : apiKey.getD "" ≠ "") :
    (∃ e, t = .netFail e ∧ fetch_weather_by_city apiKey t city units =
        .error (.runtimeError ("Network error: " ++ e)))
    ∨ (∃ s b, t = .response s b ∧ 400 ≤ s ∧ s < 600
        ∧ fetch_weather_by_city apiKey t city units =
            .error (.runtimeError ("API error: " ++ apiMsg s b)))
    ∨ (∃ s, t = .response s none ∧ ¬(400 ≤ s ∧ s < 600)
        ∧ fetch_weather_by_city apiKey t city units =
            .error (.runtimeError "Invalid JSON response from server"))
    ∨ (∃ s j, t = .response s (some j) ∧ ¬(400 ≤ s ∧ s < 600)
        ∧ fetch_weather_by_city apiKey t city units = normalizeWeather city j) := by
  rw [fetch_with_key apiKey t city units h]
  cases t with
  | netFail e =>
    exact Or.inl ⟨e, rfl, by simp [get_json, Bind.bind, Except.bind]⟩
  | response s b =>
    by_cases herr : 400 ≤ s ∧ s < 600
    · exact Or.inr (Or.inl ⟨s, b, rfl, herr.1, herr.2,
        by simp [get_json, herr, Bind.bind, Except.bind]⟩)
    · cases b with
      | none =>
        exact Or.inr (Or.inr (Or.inl ⟨s, rfl, herr,
          by simp [get_json, herr, Bind.bind, Except.bind]⟩))
      | some j =>
        exact Or.inr (Or.inr (Or.inr ⟨s, j, rfl, herr,
          by simp [get_json, herr, Bind.bind, Except.bind]⟩))

/-- C5: `fetch_weather_by_city` fails with the `ConfigurationError` message
exactly when no API key is configured; with a `NetworkError`-form message
exactly on transport failure; with an `ApiError`-form message — carrying the
provider's own `message` field whenever the error body supplies one — exactly
on an HTTP 4xx/5xx response; with the `ParseError` message on a non-error
response whose body is not JSON; and the four message forms are pairwise
distinct, so the kinds of the taxonomy are distinguishable. -/
theorem error_taxonomy (apiKey : Option String) (t : Transport) (city units : String) :
    (fetch_weather_by_city apiKey t city units = .error (.runtimeError keyMsg) ↔
      apiKey.getD "" = "")
    ∧ ((∃ m, fetch_weather_by_city apiKey t city units = .error (.runtimeError m)
          ∧ startsWithL "Network error: " m = true) ↔
        (apiKey.getD "" ≠ "" ∧ ∃ e, t = .netFail e))
    ∧ ((∃ m, fetch_weather_by_city apiKey t city units = .error (.runtimeError m)
          ∧ startsWithL "API error: " m = true) ↔
        (apiKey.getD "" ≠ "" ∧ ∃ s b, t = .response s b ∧ 400 ≤ s ∧ s < 600))
    ∧ (∀ (s : Nat) (kvs : List (String × Json)) (msg : String),
        apiKey.getD "" ≠ "" → t = .response s (some (.obj kvs)) →
        400 ≤ s → s < 600 → kvs.lookup "message" = some (.str msg) → msg ≠ "" →
        fetch_weather_by_city apiKey t city units =
          .error (.runtimeError ("API error: " ++ msg)))
    ∧ (∀ s : Nat, apiKey.getD "" ≠ "" → t = .response s none → ¬(400 ≤ s ∧ s < 600) →
        fetch_weather_by_city apiKey t city units =
          .error (.runtimeError "Invalid JSON response from server"))
    ∧ (∀ e m : String, ("Network error: " ++ e ≠ keyMsg)
        ∧ ("API error: " ++ m ≠ keyMsg)
        ∧ ("Network error: " ++ e ≠ "API error: " ++ m)
        ∧ ("Network error: " ++ e ≠ "Invalid JSON response from server")
        ∧ ("API error: " ++ m ≠ "Invalid JSON response from server")
        ∧ (keyMsg ≠ "Invalid JSON response from server")) := by
  have hnk : ∀ e, ("Network error: " ++ e) ≠ keyMsg := fun e =>
    string_append_ne _ _ _ (by decide) (by decide)
  have hak : ∀ m, ("API error: " ++ m) ≠ keyMsg := fun m =>
    string_append_ne _ _ _ (by decide) (by decide)
  have hna : ∀ e m, ("Network error: " ++ e) ≠ ("API error: " ++ m) := fun e m =>
    string_append_ne_append _ _ _ _ (by decide) (by decide) (by decide)
  have hni : ∀ e, ("Network error: " ++ e) ≠ "Invalid JSON response from server" := fun e =>
    string_append_ne _ _ _ (by decide) (by decide)
  have hai : ∀ m, ("API error: " ++ m) ≠ "Invalid JSON response from server" := fun m =>
    string_append_ne _ _ _ (by decide) (by decide)
  refine ⟨?_, ?_, ?_, ?_, ?_, ?_⟩
  · constructor
    · intro hfe
      by_contra hk
      rcases fetch_result_shape apiKey t city units hk with
        ⟨e, -, hq⟩ | ⟨s, b, -, -, -, hq⟩ | ⟨s, -, -, hq⟩ | ⟨s, j, -, -, hq⟩
      · rw [hq] at hfe
        exact hnk e (PyErr.runtimeError.inj (Except.error.inj hfe))
      · rw [hq] at hfe
        exact hak (apiMsg s b) (PyErr.runtimeError.inj (Except.error.inj hfe))
      · rw [hq] at hfe
        exact absurd (PyErr.runtimeError.inj (Except.error.inj hfe)) (by decide)
      · rw [hq] at hfe
        rcases normalize_error_kind city j _ hfe with h | h <;> simp at h
    · intro hk
      exact fetch_no_key apiKey t city units hk
  · constructor
    · rintro ⟨m, hfe, hpre⟩
      by_cases hk : apiKey.getD "" = ""
      · rw [fetch_no_key apiKey t city units hk] at hfe
        have hm := PyErr.runtimeError.inj (Except.error.inj hfe)
        rw [← hm] at hpre
        exact absurd hpre (by decide)
      · refine ⟨hk, ?_⟩
        rcases fetch_result_shape apiKey t city units hk with
          ⟨e, ht, hq⟩ | ⟨s, b, ht, -, -, hq⟩ | ⟨s, ht, -, hq⟩ | ⟨s, j, ht, -, hq⟩
        · exact ⟨e, ht⟩
        · rw [hq] at hfe
          rw [← PyErr.runtimeError.inj (Except.error.inj hfe)] at hpre
          rw [not_network_prefix_api] at hpre
          exact absurd hpre (by decide)
        · rw [hq] at hfe
          rw [← PyErr.runtimeError.inj (Except.error.inj hfe)] at hpre
          exact absurd hpre (by decide)
        · rw [hq] at hfe
          rcases normalize_error_kind city j _ hfe with h | h <;> simp at h
    · rintro ⟨hk, e, rfl⟩
      refine ⟨"Network error: " ++ e, ?_, startsWithL_self _ _⟩
      rw [fetch_with_key apiKey _ city units hk]
      simp [get_json, Bind.bind, Except.bind]
  · constructor
    · rintro ⟨m, hfe, hpre⟩
      by_cases hk : apiKey.getD "" = ""
      · rw [fetch_no_key apiKey t city units hk] at hfe
        rw [← PyErr.runtimeError.inj (Except.error.inj hfe)] at hpre
        exact absurd hpre (by decide)
      · refine ⟨hk, ?_⟩
        rcases fetch_result_shape apiKey t city units hk with
          ⟨e, ht, hq⟩ | ⟨s, b, ht, h4, h6, hq⟩ | ⟨s, ht, -, hq⟩ | ⟨s, j, ht, -, hq⟩
        · rw [hq] at hfe
          rw [← PyErr.runtimeError.inj (Except.error.inj hfe)] at hpre
          rw [not_api_prefix_network] at hpre
          exact absurd hpre (by decide)
        · exact ⟨s, b, ht, h4, h6⟩
        · rw [hq] at hfe
          rw [← PyErr.runtimeError.inj (Except.error.inj hfe)] at hpre
          exact absurd hpre (by decide)
        · rw [hq] at hfe
          rcases normalize_error_kind city j _ hfe with h | h <;> simp at h
    · rintro ⟨hk, s, b, rfl, h4, h6⟩
      have herr : 400 ≤ s ∧ s < 600 := ⟨h4, h6⟩
      refine ⟨"API error: " ++ apiMsg s b, ?_, startsWithL_self _ _⟩
      rw [fetch_with_key apiKey _ city units hk]
      simp [get_json, herr, Bind.bind, Except.bind]
  · rintro s kvs msg hk rfl h4 h6 hlook hne
    have herr : 400 ≤ s ∧ s < 600 := ⟨h4, h6⟩
    rw [fetch_with_key apiKey _ city units hk]
    simp [get_json, herr, Bind.bind, Except.bind, apiMsg, hlook, truthy, pyStr, hne]
  · rintro s hk rfl hcond
    rw [fetch_with_key apiKey _ city units hk]
    simp [get_json, hcond, Bind.bind, Except.bind]
  · intro e m
    exact ⟨hnk e, hak m, hna e m, hni e, hai m, by decide⟩

/-- Witness for C5: the three failure kinds on concrete inputs — a missing
key, a transport failure, and a 401 whose body carries the provider's
message. -/
theorem error_taxonomy_witness :
    fetch_weather_by_city none (.response 200 (some (.obj []))) "Paris" "metric" =
      .error (.runtimeError keyMsg)
    ∧ (∃ m, fetch_weather_by_city (some "k") (.netFail "timed out") "Paris" "metric" =
          .error (.runtimeError m) ∧ startsWithL "Network error: " m = true)
    ∧ fetch_weather_by_city (some "k")
        (.response 401 (some (.obj [("cod", .num 401), ("message", .str "Invalid API key")])))
        "Paris" "metric" = .error (.runtimeError ("API error: " ++ "Invalid API key")) := by
  refine ⟨?_, ?_, ?_⟩
  · exact (error_taxonomy none _ "Paris" "metric").1.mpr rfl
  · exact (error_taxonomy (some "k") _ "Paris" "metric").2.1.mpr ⟨by decide, "timed out", rfl⟩
  · exact (error_taxonomy (some "k") _ "Paris" "metric").2.2.2.1 401 _ "Invalid API key"
      (by decide) rfl (by decide) (by decide) rfl (by decide)
